import Mathlib

/-!
Verification development for the pyonstar repository (`onstar/auth.py`,
`onstar/client.py`).  The Python code is shallowly embedded: pure helpers
become Lean functions, network calls become oracle parameters (functions
supplying the response of the i-th call), on-disk files become `Option`
fields of an explicit state record, exceptions become explicit error
constructors, and the recursive control flow of `authenticate` /
`_api_request` is driven by an explicit fuel parameter.  Machine time
(`time.time()`) is a `Nat` parameter `now` in epoch seconds.
-/

namespace PyOnStar

/-- Embedding of the `TokenSet` TypedDict of `auth.py` (the Microsoft
identity token set): all the fields other than `access_token` are
optional in the source dict, so they are `Option`s here. -/
structure TokenSet where
  accessToken : String
  idToken : Option String := none
  refreshToken : Option String := none
  expiresIn : Option Nat := none
  expiresAt : Option Nat := none
deriving DecidableEq

/-- Embedding of `GMAPITokenResponse` of `auth.py` (the exchanged vendor
API token).  `expires_in` is always read unguarded (`gm_token["expires_in"]`)
so it is a plain field; `expires_at` is read with `.get("expires_at", 0)`
so it is an `Option`. -/
structure GMAPITokenResponse where
  accessToken : String
  expiresIn : Nat := 0
  expiresAt : Option Nat := none
deriving DecidableEq

/-- `GMAuth._token_is_valid` (auth.py line 531-533):
`token.get("expires_at", 0) > int(time.time()) + 5 * 60`. -/
def tokenIsValid (token : GMAPITokenResponse) (now : Nat) : Bool :=
  now + 5 * 60 < token.expiresAt.getD 0

/-- `TOKEN_REFRESH_WINDOW_SECONDS` (client.py line 25). -/
def TOKEN_REFRESH_WINDOW_SECONDS : Nat := 5 * 60

/-- `OnStar._needs_token_refresh` (client.py lines 211-215): `True` when no
token is cached, else `token.get("expires_at", 0) < int(time.time()) +
TOKEN_REFRESH_WINDOW_SECONDS`. -/
def needsTokenRefresh (token : Option GMAPITokenResponse) (now : Nat) : Bool :=
  match token with
  | none => true
  | some t => t.expiresAt.getD 0 < now + TOKEN_REFRESH_WINDOW_SECONDS

/-- A vendor token that expires exactly 300 seconds after `now = 1000`:
the boundary case for the two freshness checks. -/
def boundaryToken : GMAPITokenResponse :=
  { accessToken := "tok", expiresIn := 300, expiresAt := some 1300 }

/-- ASCII upper-casing of one character, mirroring what Python's
`str.upper()` does on the ASCII usernames/VINs this code handles. -/
def upperChar (c : Char) : Char :=
  if 97 ≤ c.toNat ∧ c.toNat ≤ 122 then Char.ofNat (c.toNat - 32) else c

/-- Embedding of Python's `str.upper()` (kernel-reducible, unlike
`String.toUpper`). -/
def pyUpper (s : String) : String := ⟨s.toList.map upperChar⟩

/-- Claims of the Microsoft identity token as decoded by
`jwt.decode(stored["access_token"], ...)` in `_load_ms_token`: only the
`name` / `email` fields are consulted. -/
structure MsDecoded where
  name : Option String := none
  email : Option String := none
deriving DecidableEq

/-- One entry of the `vehs` claim (the `Vehicle` TypedDict of auth.py). -/
structure VehicleAuth where
  vin : String
  per : String
deriving DecidableEq

/-- The `DecodedPayload` TypedDict of auth.py: payload of a decoded GM API
access token (`vehs` defaults to the empty list when the claim is absent,
matching the falsiness test `not decoded.get("vehs")`). -/
structure GmDecoded where
  uid : Option String := none
  vehs : List VehicleAuth := []
deriving DecidableEq

/-- `email_or_name = decoded.get("name", "").upper() or
decoded.get("email", "").upper()` (auth.py line 622): Python's `or`
returns the second operand when the first upper-cased name is the empty
string (falsy). -/
def msDecodedIdentity (d : MsDecoded) : String :=
  let n := pyUpper (d.name.getD "")
  if n = "" then pyUpper (d.email.getD "") else n

/-- Result of `GMAuth._load_ms_token`: the returned token set (`none`
embeds the Python return value `False`), whether the refresh branch was
entered (it consumes one oracle answer), and the token set persisted by
`_save_tokens` when a refresh succeeded. -/
structure LoadMsOut where
  result : Option TokenSet
  refreshAttempted : Bool
  savedToken : Option TokenSet
deriving DecidableEq

/-- `GMAuth._load_ms_token` (auth.py lines 613-643).  `decodeMs` is the
oracle for `jwt.decode` on the stored access token (`none` = the decode
raised, landing in the `except` that returns `False`); `msFile` is the
content of `microsoft_tokens.json` (`none` = file absent);
`refreshResult` is the oracle for `_refresh_ms_token` (`none` = the
refresh POST raised, which is caught and falls through to `return False`).
The function is total: every failure path returns `result = none` rather
than raising, exactly as the Python code catches every exception. -/
def loadMsToken (decodeMs : String → Option MsDecoded) (username : String)
    (now : Nat) (msFile : Option TokenSet) (refreshResult : Option TokenSet) :
    LoadMsOut :=
  match msFile with
  | none => ⟨none, false, none⟩
  | some stored =>
    match decodeMs stored.accessToken with
    | none => ⟨none, false, none⟩
    | some d =>
      if msDecodedIdentity d ≠ pyUpper username then ⟨none, false, none⟩
      else if now + 5 * 60 < stored.expiresAt.getD 0 then ⟨some stored, false, none⟩
      else if stored.refreshToken.getD "" ≠ "" then
        match refreshResult with
        | some r => ⟨some r, true, some r⟩
        | none => ⟨none, true, none⟩
      else ⟨none, false, none⟩

/-- `GMAuth._load_current_gm_api_token` (auth.py lines 593-611), as the
value of `self._current_gm_token` after the call (`none` when the method
left it unset).  `decodeGm` is the oracle for `jwt.decode` on the stored
GM access token; `gmFile` is the content of `gm_tokens.json`.  All
exception paths (missing file, undecodable token) yield `none`. -/
def loadCurrentGmApiToken (decodeGm : String → Option GmDecoded)
    (username : String) (now : Nat) (gmFile : Option GMAPITokenResponse) :
    Option GMAPITokenResponse :=
  match gmFile with
  | none => none
  | some gm =>
    match decodeGm gm.accessToken with
    | none => none
    | some d =>
      if pyUpper (d.uid.getD "") ≠ pyUpper username then none
      else if tokenIsValid gm now then some gm
      else none

/-- One element of the `vehicles.vehicle[*].commands.command` array in the
account/vehicles response: only `name` and `url` are consulted when the
command dictionary is built (both via `"name" in cmd and "url" in cmd`). -/
structure CommandEntry where
  name : Option String := none
  url : Option String := none
deriving DecidableEq

/-- One element of the `vehicles.vehicle` array.  `vin` models
`vehicle.get("vin")`; `commands = some l` models
`"commands" in vehicle and "command" in vehicle["commands"]` with payload
`l`. -/
structure VehicleEntry where
  vin : Option String := none
  commands : Option (List CommandEntry) := none
deriving DecidableEq

/-- The inner loop of `OnStar.get_account_vehicles` (client.py lines
425-430): `commands[cmd["name"]] = cmd` for each entry carrying both a
name and a url. -/
def extractCommands (cmds : List CommandEntry) : List (String × CommandEntry) :=
  cmds.foldl (fun acc c =>
    match c.name, c.url with
    | some n, some _ => acc ++ [(n, c)]
    | _, _ => acc) []

/-- The state `get_account_vehicles` mutates: `self._vehicle_data` and
`self._available_commands`. -/
structure VehiclesOut where
  vehicleData : Option VehicleEntry := none
  availableCommands : List (String × CommandEntry) := []
deriving DecidableEq

/-- One iteration of the `for vehicle in response["vehicles"]["vehicle"]`
loop (client.py lines 419-430): the body fires when
`vehicle.get("vin") == self._vin` and the commands payload is present,
overwriting both stored fields. -/
def accountVehiclesStep (selfVin : String) (acc : VehiclesOut)
    (v : VehicleEntry) : VehiclesOut :=
  if v.vin = some selfVin ∧ v.commands.isSome then
    { vehicleData := some v,
      availableCommands := extractCommands (v.commands.getD []) }
  else acc

/-- `OnStar.get_account_vehicles` catalog construction, composed with the
`self._vin = vin.upper()` normalisation done in `OnStar.__init__`
(client.py line 152): the response entries are compared against the
upper-cased configured VIN. -/
def getAccountVehicles (configuredVin : String)
    (vehicles : List VehicleEntry) : VehiclesOut :=
  vehicles.foldl (accountVehiclesStep (pyUpper configuredVin)) {}

/-- `OnStar.is_command_available` (client.py lines 444-446): dictionary
membership in `self._available_commands`. -/
def isCommandAvailable (availableCommands : List (String × CommandEntry))
    (commandName : String) : Bool :=
  (availableCommands.lookup commandName).isSome

/-- The two failure modes of `OnStar.diagnostics` before any request is
issued (both are `ValueError` in the source). -/
inductive DiagnosticsError where
  | commandUnavailable
  | unsupportedItems
deriving DecidableEq

/-- `OnStar.diagnostics` (client.py lines 621-680) up to the point where
the request body is built: returns the `diagnosticItem` list of the body
that will be POSTed, or the error raised instead of issuing the request.
`available` is the result of `is_command_available("diagnostics")`;
`supportedDiagnostics` the result of `get_supported_diagnostics()`;
`options = some l` models `options and "diagnostic_item" in options`. -/
def diagnosticsBody (available : Bool)
    (supportedDiagnostics : List String)
    (options : Option (List String)) :
    Except DiagnosticsError (List String) :=
  if !available then .error .commandUnavailable
  else
    match options with
    | some requested =>
      let filtered := requested.filter (fun i => decide (i ∈ supportedDiagnostics))
      if filtered.isEmpty then .error .unsupportedItems
      else .ok filtered
    | none => .ok supportedDiagnostics

/-- The `GMAuthConfig` TypedDict: every key is optional and read through
`config.get(key)`. -/
structure GMAuthConfig where
  username : Option String := none
  password : Option String := none
  deviceId : Option String := none
  totpKey : Option String := none
  tokenLocation : Option String := none
deriving DecidableEq

/-- `config.get(key)` on a `GMAuthConfig`. -/
def configGet (c : GMAuthConfig) (key : String) : Option String :=
  if key = "username" then c.username
  else if key = "password" then c.password
  else if key = "device_id" then c.deviceId
  else if key = "totp_key" then c.totpKey
  else if key = "token_location" then c.tokenLocation
  else none

/-- The `required` list of `get_gm_api_jwt` (auth.py line 659). -/
def requiredConfigKeys : List String :=
  ["username", "password", "device_id", "totp_key"]

/-- `not config.get(key)`: the key is missing (`None`) or its value is the
empty string — the two falsy cases for an optional-string config value. -/
def configValueFalsy (v : Option String) : Bool := v.getD "" = ""

/-- The first required key (in source order) that the `for key in required`
loop of `get_gm_api_jwt` finds missing or falsy, if any. -/
def firstMissingConfigKey (c : GMAuthConfig) : Option String :=
  requiredConfigKeys.find? (fun k => configValueFalsy (configGet c k))

/-- `get_gm_api_jwt` (auth.py lines 658-673): if any required key is
missing it raises `ValueError(f"Missing required configuration key: {key}")`
before `GMAuth(config)` is constructed and before `auth.authenticate()`
runs; otherwise it proceeds to authentication, whose outcome is the
abstract `authOutcome` parameter (so the error branch provably does not
depend on it). -/
def getGmApiJwt {A : Type} (c : GMAuthConfig) (authOutcome : A) :
    Except String A :=
  match firstMissingConfigKey c with
  | some k => .error ("Missing required configuration key: " ++ k)
  | none => .ok authOutcome

/-- The instance configuration `OnStar._api_request` reads:
`self._check_request_status`, `self._request_polling_timeout_seconds` and
`self._request_polling_interval_seconds` (client.py lines 147-149
defaults). -/
structure ApiConfig where
  checkRequestStatus : Bool := true
  pollingTimeoutSeconds : Nat := 90
  pollingIntervalSeconds : Nat := 6
deriving DecidableEq

/-- The `commandResponse` envelope of a command response
(client.py lines 348-352): `requestTime` is carried already parsed to
epoch seconds (the source parses the `%Y-%m-%dT%H:%M:%S.%fZ` string with
`time.strptime`/`time.mktime`, which yields the UTC epoch value on a
UTC-configured host); `hasBody` models `"body" in command_response`;
`ctype` is the envelope's `type` field. -/
structure CommandResponse where
  requestTime : Option Nat := none
  status : Option String := none
  url : Option String := none
  ctype : Option String := none
  hasBody : Bool := false
deriving DecidableEq

/-- A parsed 2xx JSON response body.  `tag` identifies the concrete
payload (so theorems can say *which* response is returned); only the
`commandResponse` member is inspected by `_api_request`. -/
structure ResponseData where
  tag : Nat := 0
  commandResponse : Option CommandResponse := none
deriving DecidableEq

/-- The `error` member of a non-2xx JSON body, as read by
`error_body.get("error", {}).get("code"/"description")`. -/
structure ApiErrorBody where
  code : Option String := none
  description : Option String := none
deriving DecidableEq

/-- One scripted HTTP exchange result: a 2xx response with JSON `d`, or a
non-2xx status with an optional parseable error body (`none` = the body
was not valid JSON, so `response.json()` inside the retry check raises
and is caught). -/
inductive HttpResponse where
  | success (d : ResponseData)
  | httpFailure (statusCode : Nat) (errBody : Option ApiErrorBody)
deriving DecidableEq

/-- The identifying arguments of one `_api_request` invocation: HTTP
method, path-or-full-URL, and the optional JSON body (abstracted to a
tag, since `_api_request` never inspects it). -/
structure ApiRequestCall where
  method : String
  path : String
  jsonBody : Option Nat := none
deriving DecidableEq

/-- How one `_api_request` call chain ends: a returned JSON payload, one
of the raised `RuntimeError`s (command failure / polling timeout), a
propagated `httpx.HTTPStatusError`, script exhaustion (the environment
had no response for a request — never reached in the theorems below), or
fuel exhaustion of the embedding. -/
inductive ApiOutcome where
  | ok (d : ResponseData)
  | commandFailed (d : ResponseData)
  | commandTimedOut (seconds : Nat)
  | httpStatusError (code : Nat)
  | noScriptedResponse
  | outOfFuel
deriving DecidableEq

/-- Observable trace of one `_api_request` call chain: the outcome, every
HTTP request issued in order, the number of `_check_request_pause` sleeps
(each lasting the polling interval) and the number of duplicate-retry
sleeps (each lasting `retry_delay`). -/
structure ApiRun where
  outcome : ApiOutcome
  requestsIssued : List ApiRequestCall
  pollSleeps : Nat
  retrySleeps : Nat
deriving DecidableEq

/-- Whether the character list `s` starts with `pat`. -/
def charsStartWith : List Char → List Char → Bool
  | [], _ => true
  | _ :: _, [] => false
  | p :: ps, c :: cs => p = c && charsStartWith ps cs

/-- Whether `pat` occurs as a contiguous sublist of `s`. -/
def charsContain (pat : List Char) : List Char → Bool
  | [] => charsStartWith pat []
  | c :: cs => charsStartWith pat (c :: cs) || charsContain pat cs

/-- Python's `pat in s` substring test. -/
def containsSubstring (s pat : String) : Bool :=
  charsContain pat.toList s.toList

/-- `max_polls is not None and poll_count >= max_polls`
(client.py line 364). -/
def maxPollsReached (maxPolls : Option Nat) (pollCount : Nat) : Bool :=
  match maxPolls with
  | some m => m ≤ pollCount
  | none => false

/-- The timeout test of client.py lines 369-372: a `requestTime` is
present and `current_time >= request_timestamp + timeout`. -/
def pollTimedOut (requestTime : Option Nat) (timeout now : Nat) : Bool :=
  match requestTime with
  | some t => t + timeout ≤ now
  | none => false

/-- The duplicate-request test of client.py lines 320-324:
HTTP 500, retries not exhausted, and a parseable error body with code
`ONS-300` and a description containing `"Duplicate vehicle request"`. -/
def isDuplicateRetry (statusCode : Nat) (currentRetry maxRetries : Nat)
    (errBody : Option ApiErrorBody) : Bool :=
  decide (statusCode = 500) && decide (currentRetry < maxRetries) &&
    match errBody with
    | some b => decide (b.code = some "ONS-300") &&
        containsSubstring (b.description.getD "") "Duplicate vehicle request"
    | none => false

/-- `OnStar._api_request` (client.py lines 246-407).  `env` is the script
of HTTP responses, consumed one per request issued; `now` advances by the
corresponding delay at each sleep (responses themselves are modelled as
instantaneous); `fuel` bounds the recursion depth of the embedding (the
Python recursion has no such bound).  Faithful details: the duplicate
retry re-issues the identical call with `current_retry + 1`; the polling
recursion issues `GET status_url` with the retry parameters back at their
defaults (`max_retries=1`, `retry_delay=2`), `poll_count + 1`, and the
resolved `check_request_status` value; and the checks run in source
order — failure, success-with-body, max-polls, timeout, connect,
poll-on-url. -/
def apiRequest (cfg : ApiConfig) (env : List HttpResponse)
    (call : ApiRequestCall) (maxRetries retryDelay currentRetry : Nat)
    (checkRequestStatus : Option Bool) (pollCount : Nat)
    (maxPolls : Option Nat) (now : Nat) (fuel : Nat) : ApiRun :=
  match fuel with
  | 0 => ⟨.outOfFuel, [], 0, 0⟩
  | fuel + 1 =>
    match env with
    | [] => ⟨.noScriptedResponse, [call], 0, 0⟩
    | resp :: envRest =>
      match resp with
      | .httpFailure statusCode errBody =>
        if isDuplicateRetry statusCode currentRetry maxRetries errBody then
          let r := apiRequest cfg envRest call maxRetries retryDelay
            (currentRetry + 1) checkRequestStatus pollCount maxPolls
            (now + retryDelay) fuel
          ⟨r.outcome, call :: r.requestsIssued, r.pollSleeps, r.retrySleeps + 1⟩
        else ⟨.httpStatusError statusCode, [call], 0, 0⟩
      | .success d =>
        let shouldCheck := checkRequestStatus.getD cfg.checkRequestStatus
        match shouldCheck, d.commandResponse with
        | true, some cr =>
          if cr.status = some "failure" then
            ⟨.commandFailed d, [call], 0, 0⟩
          else if cr.status = some "success" ∧ cr.hasBody then
            ⟨.ok d, [call], 0, 0⟩
          else if maxPollsReached maxPolls pollCount then
            ⟨.ok d, [call], 0, 0⟩
          else if pollTimedOut cr.requestTime cfg.pollingTimeoutSeconds now then
            ⟨.commandTimedOut cfg.pollingTimeoutSeconds, [call], 0, 0⟩
          else if cr.ctype = some "connect" then
            ⟨.ok d, [call], 0, 0⟩
          else
            match cr.url with
            | some u =>
              if cr.status ≠ some "success" then
                let r := apiRequest cfg envRest ⟨"GET", u, none⟩ 1 2 0
                  (some shouldCheck) (pollCount + 1) maxPolls
                  (now + cfg.pollingIntervalSeconds) fuel
                ⟨r.outcome, call :: r.requestsIssued, r.pollSleeps + 1,
                  r.retrySleeps⟩
              else ⟨.ok d, [call], 0, 0⟩
            | none => ⟨.ok d, [call], 0, 0⟩
        | _, _ => ⟨.ok d, [call], 0, 0⟩

/-- Wall-clock seconds spent sleeping during a run (the only way the
model advances time). -/
def sleepSeconds (cfg : ApiConfig) (retryDelay : Nat) (r : ApiRun) : Nat :=
  r.pollSleeps * cfg.pollingIntervalSeconds + r.retrySleeps * retryDelay

/-- A scripted `inProgress` poll response with poll URL `u` and no
`requestTime`. -/
def inProgressResp (tag : Nat) (u : String) : ResponseData :=
  { tag,
    commandResponse := some
      { status := some "inProgress", url := some u,
        ctype := some "lockDoor" } }

/-- A scripted terminal `success` response carrying a `body`. -/
def successResp (tag : Nat) : ResponseData :=
  { tag,
    commandResponse := some
      { status := some "success", url := some "u", ctype := some "lockDoor",
        hasBody := true } }

/-- A scripted `inProgress` response whose `requestTime` is `t`. -/
def staleInProgressResp (tag : Nat) (u : String) (t : Nat) : ResponseData :=
  { tag,
    commandResponse := some
      { status := some "inProgress", url := some u, ctype := some "lockDoor",
        requestTime := some t } }

/-- The vendor duplicate-request error body (`ONS-300`). -/
def dupErrorBody : ApiErrorBody :=
  { code := some "ONS-300",
    description := some "Duplicate vehicle request detected" }

/-- An HTTP 500 response with the vendor duplicate-request error body. -/
def dup500 : HttpResponse := .httpFailure 500 (some dupErrorBody)

/-- A `connect`-typed envelope whose status is `failure`. -/
def connectFailureData : ResponseData :=
  { tag := 7,
    commandResponse := some
      { status := some "failure", ctype := some "connect" } }

/-- A `connect`-typed envelope whose status is `pending`. -/
def connectPendingData : ResponseData :=
  { tag := 3,
    commandResponse := some
      { status := some "pending", ctype := some "connect" } }


/-- Counters observed along one `authenticate` run: completed full MS B2C
login sequences (`_do_full_auth_sequence`), token-exchange POSTs, and
token-file invalidations (each renaming both existing token files). -/
structure AuthTrace where
  fullAuthAttempts : Nat := 0
  exchanges : Nat := 0
  invalidations : Nat := 0
deriving DecidableEq

/-- The mutable state of a `GMAuth` instance plus its token directory:
the two JSON token files, their `.old` rename targets, the in-memory
`self._current_gm_token`, and cursors into the three network oracles. -/
structure AuthState where
  msFile : Option TokenSet := none
  gmFile : Option GMAPITokenResponse := none
  msOldFile : Option TokenSet := none
  gmOldFile : Option GMAPITokenResponse := none
  currentGmToken : Option GMAPITokenResponse := none
  exchangeIdx : Nat := 0
  fullAuthIdx : Nat := 0
  refreshIdx : Nat := 0
deriving DecidableEq

/-- The environment of an `authenticate` run: the configured username,
the `jwt.decode` oracles, and one oracle per kind of network interaction,
indexed by how many calls of that kind happened before (`none` = the call
raised / failed). -/
structure AuthEnv where
  username : String
  decodeMs : String → Option MsDecoded
  decodeGm : String → Option GmDecoded
  exchangeResult : Nat → Option GMAPITokenResponse
  fullAuthResult : Nat → Option TokenSet
  refreshResult : Nat → Option TokenSet
  now : Nat

/-- How one `authenticate` call ends (besides fuel exhaustion of the
embedding — the Python recursion itself is unbounded). -/
inductive AuthOutcome where
  | ok (t : GMAPITokenResponse)
  | fullAuthFailed
  | exchangeFailed
  | gmDecodeFailed
  | outOfFuel
deriving DecidableEq

/-- `GMAuth._save_tokens` (auth.py lines 582-591): always rewrites
`microsoft_tokens.json`; rewrites `gm_tokens.json` only when an in-memory
GM token is present. -/
def saveTokens (st : AuthState) (ts : TokenSet) : AuthState :=
  { st with msFile := some ts,
            gmFile := match st.currentGmToken with
              | some g => some g
              | none => st.gmFile }

/-- The empty-`vehs` invalidation (auth.py lines 565-570): each token
file that exists is renamed to its `.old` sibling, and the in-memory GM
token is cleared. -/
def invalidateTokenFiles (st : AuthState) : AuthState :=
  { st with
    msOldFile := match st.msFile with | some m => some m | none => st.msOldFile,
    msFile := none,
    gmOldFile := match st.gmFile with | some g => some g | none => st.gmOldFile,
    gmFile := none,
    currentGmToken := none }

/-- Outcome of one `_get_gm_api_token` body: either a final answer, or
the `return self.authenticate()` recursion of the empty-`vehs` branch. -/
inductive GmStepOut where
  | done (outcome : AuthOutcome) (st : AuthState) (tr : AuthTrace)
  | reauth (st : AuthState) (tr : AuthTrace)

/-- The token-exchange part of `GMAuth._get_gm_api_token` (auth.py lines
545-576): POST the exchange, stamp `expires_at = now + expires_in`,
decode the `vehs` claim, and either invalidate-and-reauthenticate (empty
`vehs`), or cache the token, persist both sets and return it. -/
def getGmExchange (env : AuthEnv) (st : AuthState) (tr : AuthTrace)
    (ts : TokenSet) : GmStepOut :=
  match env.exchangeResult st.exchangeIdx with
  | none => .done .exchangeFailed { st with exchangeIdx := st.exchangeIdx + 1 }
      { tr with exchanges := tr.exchanges + 1 }
  | some gmRaw =>
    let st := { st with exchangeIdx := st.exchangeIdx + 1 }
    let tr := { tr with exchanges := tr.exchanges + 1 }
    let gm : GMAPITokenResponse :=
      { gmRaw with expiresAt := some (env.now + gmRaw.expiresIn) }
    match env.decodeGm gm.accessToken with
    | none => .done .gmDecodeFailed st tr
    | some dec =>
      if dec.vehs.isEmpty then
        .reauth (invalidateTokenFiles st)
          { tr with invalidations := tr.invalidations + 1 }
      else
        let st := { st with currentGmToken := some gm }
        .done (.ok gm) (saveTokens st ts) tr

/-- `GMAuth._get_gm_api_token` (auth.py lines 535-576): the cached
in-memory token short-circuits the exchange when still valid. -/
def getGmApiTokenStep (env : AuthEnv) (st : AuthState) (tr : AuthTrace)
    (ts : TokenSet) : GmStepOut :=
  match st.currentGmToken with
  | some cur =>
    if tokenIsValid cur env.now then .done (.ok cur) st tr
    else getGmExchange env st tr ts
  | none => getGmExchange env st tr ts

/-- `GMAuth.authenticate` (auth.py lines 188-205) together with the
empty-`vehs` recursion of `_get_gm_api_token`: load the cached MS token
(possibly refreshing and persisting it), else run the full auth sequence
(one `fullAuthAttempts` tick, persisting the fresh set), then exchange
for the GM token; the empty-`vehs` branch loops back to the top.  `fuel`
bounds the recursion depth of the embedding only — the source recursion
is unbounded. -/
def authenticate (env : AuthEnv) (st : AuthState) (tr : AuthTrace)
    (fuel : Nat) : AuthOutcome × AuthState × AuthTrace :=
  match fuel with
  | 0 => (.outOfFuel, st, tr)
  | fuel + 1 =>
    let lr := loadMsToken env.decodeMs env.username env.now st.msFile
      (env.refreshResult st.refreshIdx)
    let st1 := if lr.refreshAttempted then
        { st with refreshIdx := st.refreshIdx + 1 }
      else st
    let st2 := match lr.savedToken with
      | some r => saveTokens st1 r
      | none => st1
    match lr.result with
    | some ts =>
      match getGmApiTokenStep env st2 tr ts with
      | .done o st3 tr3 => (o, st3, tr3)
      | .reauth st3 tr3 => authenticate env st3 tr3 fuel
    | none =>
      match env.fullAuthResult st2.fullAuthIdx with
      | none => (.fullAuthFailed, st2, tr)
      | some fresh =>
        let st3 := { st2 with fullAuthIdx := st2.fullAuthIdx + 1 }
        let tr3 := { tr with fullAuthAttempts := tr.fullAuthAttempts + 1 }
        let st4 := saveTokens st3 fresh
        match getGmApiTokenStep env st4 tr3 fresh with
        | .done o st5 tr5 => (o, st5, tr5)
        | .reauth st5 tr5 => authenticate env st5 tr5 fuel

/-- Initial `GMAuth` state for the C1 scenarios: both token files present
on disk, nothing cached in memory. -/
def c1InitState (cached : TokenSet) (oldGm : GMAPITokenResponse) :
    AuthState :=
  { msFile := some cached, gmFile := some oldGm }

/-- A cached, owned, unexpired MS token set. -/
def c1CachedMsToken : TokenSet :=
  { accessToken := "cachedms", expiresAt := some 999999 }

/-- The MS token set a full auth sequence produces. -/
def c1FreshMsToken : TokenSet :=
  { accessToken := "freshms", expiresAt := some 999999 }

/-- The GM token sitting in `gm_tokens.json` at start. -/
def c1OldGmFileToken : GMAPITokenResponse := { accessToken := "oldgm" }

/-- An exchanged GM token whose payload decodes to an empty `vehs`. -/
def c1EmptyVehsToken : GMAPITokenResponse :=
  { accessToken := "emptyveh", expiresIn := 1800 }

/-- An exchanged GM token whose payload carries one vehicle. -/
def c1GoodToken : GMAPITokenResponse :=
  { accessToken := "goodtok", expiresIn := 1800 }

/-- MS decode oracle: every MS access token decodes to the account
owner. -/
def c1DecodeMs : String → Option MsDecoded :=
  fun _ => some { name := some "user" }

/-- GM decode oracle: only `"goodtok"` carries a vehicle; every other GM
access token decodes to an empty `vehs`. -/
def c1DecodeGm : String → Option GmDecoded :=
  fun s =>
    if s = "goodtok" then
      some { uid := some "USER", vehs := [⟨"VIN1", "full"⟩] }
    else some { uid := some "USER", vehs := [] }

/-- Environment whose first **two** exchanges return empty-`vehs` tokens
before a good one: the repeated-empty-`vehs` scenario of C1. -/
def c1CexEnv : AuthEnv :=
  { username := "user",
    decodeMs := c1DecodeMs,
    decodeGm := c1DecodeGm,
    exchangeResult := fun i =>
      if i < 2 then some c1EmptyVehsToken else some c1GoodToken,
    fullAuthResult := fun _ => some c1FreshMsToken,
    refreshResult := fun _ => none,
    now := 1000 }

/-- Environment in which **every** exchange returns an empty-`vehs`
token. -/
def c1AllEmptyEnv : AuthEnv :=
  { c1CexEnv with exchangeResult := fun _ => some c1EmptyVehsToken }

/-- Environment whose first exchange returns an empty-`vehs` token and
whose second returns a good one: the single-stale-token scenario. -/
def c1GoodEnv : AuthEnv :=
  { c1CexEnv with exchangeResult := fun i =>
      if i = 0 then some c1EmptyVehsToken else some c1GoodToken }


/-- The base64url alphabet (RFC 4648 §5), as used by Python's
`base64.urlsafe_b64encode`. -/
def b64urlChars : List Char :=
  "ABCDEFGHIJKLMNOPQRSTUVWXYZabcdefghijklmnopqrstuvwxyz0123456789-_".toList

/-- The base64url character for a 6-bit group. -/
def b64Char (n : Nat) : Char := b64urlChars.getD n 'A'

/-- Standard base64 chunking of a byte list into 4-character groups with
`=` padding. -/
def base64Chunks : List Nat → List Char
  | [] => []
  | [b1] => [b64Char (b1 / 4), b64Char (b1 % 4 * 16), '=', '=']
  | [b1, b2] =>
    [b64Char (b1 / 4), b64Char (b1 % 4 * 16 + b2 / 16),
      b64Char (b2 % 16 * 4), '=']
  | b1 :: b2 :: b3 :: rest =>
    b64Char (b1 / 4) :: b64Char (b1 % 4 * 16 + b2 / 16) ::
      b64Char (b2 % 16 * 4 + b3 / 64) :: b64Char (b3 % 64) ::
      base64Chunks rest

/-- `rstrip(b"=")`: drop the trailing padding characters. -/
def stripTrailingEq (cs : List Char) : List Char :=
  (cs.reverse.dropWhile (fun c => c = '=')).reverse

/-- `urlsafe_b64encode` of auth.py lines 144-147:
`base64.urlsafe_b64encode(data).rstrip(b"=").decode()` — base64url
without padding. -/
def urlsafeB64encode (bs : List Nat) : String :=
  ⟨stripTrailingEq (base64Chunks bs)⟩

/-- Truncation to a 32-bit word. -/
def w32 (n : Nat) : Nat := n % 4294967296

/-- 32-bit right rotation. -/
def rotr32 (x n : Nat) : Nat := w32 (x / 2 ^ n + x % 2 ^ n * 2 ^ (32 - n))

/-- 32-bit bitwise complement. -/
def not32 (x : Nat) : Nat := x ^^^ 4294967295

/-- SHA-256 `Ch`. -/
def shaCh (e f g : Nat) : Nat := g ^^^ (e &&& (f ^^^ g))

/-- SHA-256 `Maj`. -/
def shaMaj (a b c : Nat) : Nat := (a &&& b) ^^^ ((a ^^^ b) &&& c)

/-- SHA-256 `Σ0`. -/
def shaBigSigma0 (x : Nat) : Nat := rotr32 x 2 ^^^ rotr32 x 13 ^^^ rotr32 x 22

/-- SHA-256 `Σ1`. -/
def shaBigSigma1 (x : Nat) : Nat := rotr32 x 6 ^^^ rotr32 x 11 ^^^ rotr32 x 25

/-- SHA-256 `σ0`. -/
def shaSmallSigma0 (x : Nat) : Nat := rotr32 x 7 ^^^ rotr32 x 18 ^^^ x / 2 ^ 3

/-- SHA-256 `σ1`. -/
def shaSmallSigma1 (x : Nat) : Nat := rotr32 x 17 ^^^ rotr32 x 19 ^^^ x / 2 ^ 10

/-- The 64 SHA-256 round constants. -/
def shaK : List Nat :=
  [1116352408, 1899447441, 3049323471, 3921009573,
   961987163, 1508970993, 2453635748, 2870763221,
   3624381080, 310598401, 607225278, 1426881987,
   1925078388, 2162078206, 2614888103, 3248222580,
   3835390401, 4022224774, 264347078, 604807628,
   770255983, 1249150122, 1555081692, 1996064986,
   2554220882, 2821834349, 2952996808, 3210313671,
   3336571891, 3584528711, 113926993, 338241895,
   666307205, 773529912, 1294757372, 1396182291,
   1695183700, 1986661051, 2177026350, 2456956037,
   2730485921, 2820302411, 3259730800, 3345764771,
   3516065817, 3600352804, 4094571909, 275423344,
   430227734, 506948616, 659060556, 883997877,
   958139571, 1322822218, 1537002063, 1747873779,
   1955562222, 2024104815, 2227730452, 2361852424,
   2428436474, 2756734187, 3204031479, 3329325298]

/-- The eight 32-bit working variables of SHA-256. -/
structure Sha8 where
  a : Nat
  b : Nat
  c : Nat
  d : Nat
  e : Nat
  f : Nat
  g : Nat
  h : Nat
deriving DecidableEq

/-- The SHA-256 initial hash value. -/
def shaInit : Sha8 :=
  ⟨1779033703,
   3144134277,
   1013904242,
   2773480762,
   1359893119,
   2600822924,
   528734635,
   1541459225⟩

/-- `k` big-endian bytes of `n`. -/
def beBytes : Nat → Nat → List Nat
  | 0, _ => []
  | k + 1, n => beBytes k (n / 256) ++ [n % 256]

/-- SHA-256 message padding: `0x80`, zeros to 56 mod 64, then the 64-bit
big-endian bit length. -/
def sha256Pad (msg : List Nat) : List Nat :=
  msg ++ [128] ++ List.replicate ((119 - msg.length % 64) % 64) 0
    ++ beBytes 8 (msg.length * 8)

/-- Big-endian 32-bit words from bytes. -/
def toWords : List Nat → List Nat
  | b1 :: b2 :: b3 :: b4 :: rest =>
    (b1 * 16777216 + b2 * 65536 + b3 * 256 + b4) :: toWords rest
  | _ => []

/-- Append the next word of the SHA-256 message schedule. -/
def shaExtendStep (ws : Array Nat) : Array Nat :=
  let i := ws.size
  ws.push (w32 (shaSmallSigma1 (ws.getD (i - 2) 0) + ws.getD (i - 7) 0
    + shaSmallSigma0 (ws.getD (i - 15) 0) + ws.getD (i - 16) 0))

/-- Extend the message schedule by `k` words. -/
def shaExtend (ws : Array Nat) : Nat → Array Nat
  | 0 => ws
  | k + 1 => shaExtend (shaExtendStep ws) k

/-- One SHA-256 compression round. -/
def shaCompressWord (s : Sha8) (k w : Nat) : Sha8 :=
  let t1 := w32 (s.h + shaBigSigma1 s.e + shaCh s.e s.f s.g + k + w)
  let t2 := w32 (shaBigSigma0 s.a + shaMaj s.a s.b s.c)
  ⟨w32 (t1 + t2), s.a, s.b, s.c, w32 (s.d + t1), s.e, s.f, s.g⟩

/-- Compress one 64-byte block into the running hash. -/
def shaCompressBlock (h0 : Sha8) (block : List Nat) : Sha8 :=
  let ws := shaExtend (toWords block).toArray 48
  let s := (shaK.zip ws.toList).foldl
    (fun s kw => shaCompressWord s kw.1 kw.2) h0
  ⟨w32 (h0.a + s.a), w32 (h0.b + s.b), w32 (h0.c + s.c), w32 (h0.d + s.d),
    w32 (h0.e + s.e), w32 (h0.f + s.f), w32 (h0.g + s.g), w32 (h0.h + s.h)⟩

/-- Split into 64-byte blocks (`fuel ≥ length` suffices). -/
def chunks64 : List Nat → Nat → List (List Nat)
  | _, 0 => []
  | [], _ => []
  | l, fuel + 1 => l.take 64 :: chunks64 (l.drop 64) fuel

/-- SHA-256 of a byte list, as a 32-byte digest
(`hashlib.sha256(...).digest()`). -/
def sha256 (msg : List Nat) : List Nat :=
  let padded := sha256Pad msg
  let final := (chunks64 padded padded.length).foldl shaCompressBlock shaInit
  beBytes 4 final.a ++ beBytes 4 final.b ++ beBytes 4 final.c
    ++ beBytes 4 final.d ++ beBytes 4 final.e ++ beBytes 4 final.f
    ++ beBytes 4 final.g ++ beBytes 4 final.h

/-- `str.encode()` for the ASCII strings produced by
`urlsafeB64encode`. -/
def strBytes (s : String) : List Nat := s.toList.map Char.toNat

/-- The PKCE values generated by `_start_ms_authorization_flow`
(auth.py lines 256-258). -/
structure PkceParams where
  codeVerifier : String
  codeChallenge : String
  stateParam : String
deriving DecidableEq

/-- The PKCE generation of `GMAuth._start_ms_authorization_flow`
(auth.py lines 256-258):
`code_verifier = urlsafe_b64encode(secrets.token_bytes(32))`,
`code_challenge = urlsafe_b64encode(hashlib.sha256(code_verifier.encode()).digest())`,
`state = urlsafe_b64encode(secrets.token_bytes(16))`; the two
`secrets.token_bytes` draws are the oracle parameters. -/
def startMsAuthorizationFlow
    (verifierRandomBytes stateRandomBytes : List Nat) : PkceParams :=
  let codeVerifier := urlsafeB64encode verifierRandomBytes
  let codeChallenge := urlsafeB64encode (sha256 (strBytes codeVerifier))
  { codeVerifier, codeChallenge,
    stateParam := urlsafeB64encode stateRandomBytes }

end PyOnStar

namespace PyOnStar

/-- C2 (counterexample).  At `now = 1000` a token with `expires_at = 1300`
sits exactly 300 seconds in the future.  `GMAuth._token_is_valid` rejects it
(not usable), but `OnStar._needs_token_refresh` also returns `false`
(no refresh: the client treats it as usable).  The claim that both checks
obey the boundary `expires_at > now + 300s` — with usability flipping
exactly at 300 s for both — is therefore false: the client's check uses a
strict `<` for refreshing, so it accepts a token exactly at the boundary. -/
theorem c2_boundary_counterexample :
    tokenIsValid boundaryToken 1000 = false
      ∧ needsTokenRefresh (some boundaryToken) 1000 = false := by
  decide

/-- C2 (amended).  `GMAuth._token_is_valid` holds iff
`expires_at > now + 300`; `OnStar._needs_token_refresh` holds iff
`expires_at < now + 300`.  Hence away from the exact boundary
`expires_at = now + 300` the two checks agree (valid iff no refresh
needed), while at the boundary GMAuth deems the token unusable but the
client does not refresh it. -/
theorem c2_token_validity_boundary (t : GMAPITokenResponse) (now : Nat) :
    (tokenIsValid t now = true ↔ now + 300 < t.expiresAt.getD 0)
      ∧ (needsTokenRefresh (some t) now = true ↔ t.expiresAt.getD 0 < now + 300)
      ∧ (t.expiresAt.getD 0 ≠ now + 300 →
          tokenIsValid t now = !(needsTokenRefresh (some t) now)) := by
  refine ⟨?_, ?_, ?_⟩
  · simp [tokenIsValid]
  · simp [needsTokenRefresh, TOKEN_REFRESH_WINDOW_SECONDS]
  · intro hne
    unfold tokenIsValid needsTokenRefresh TOKEN_REFRESH_WINDOW_SECONDS
    rcases Nat.lt_trichotomy (t.expiresAt.getD 0) (now + 300) with h | h | h
    · simp [Nat.not_lt.mpr (Nat.le_of_lt h), h]
    · exact absurd h hne
    · simp [h, Nat.not_lt.mpr (Nat.le_of_lt h)]

/-- C2 witness: a token 1000 seconds from expiry is away from the boundary,
and there the two checks agree. -/
theorem c2_witness :
    tokenIsValid { accessToken := "tok", expiresIn := 1000, expiresAt := some 2000 } 1000
      = !(needsTokenRefresh
          (some { accessToken := "tok", expiresIn := 1000, expiresAt := some 2000 }) 1000) :=
  (c2_token_validity_boundary
    { accessToken := "tok", expiresIn := 1000, expiresAt := some 2000 } 1000).2.2 (by decide)

/-- C5.  If the stored Microsoft token's access token fails to decode, or
decodes to an identity (`name` falling back to `email`, upper-cased) that
differs from the upper-cased configured username, `_load_ms_token`
returns absent; likewise, if the stored GM token fails to decode or its
`uid` claim does not case-insensitively match the configured username,
`_load_current_gm_api_token` leaves the current token unset.  Both loads
are embedded as total functions: no input raises. -/
theorem c5_load_rejects_mismatch_or_undecodable
    (decodeMs : String → Option MsDecoded) (decodeGm : String → Option GmDecoded)
    (username : String) (now : Nat) (msStored : TokenSet)
    (gmStored : GMAPITokenResponse) (refreshResult : Option TokenSet)
    (hms : decodeMs msStored.accessToken = none ∨
      ∃ d, decodeMs msStored.accessToken = some d ∧
        msDecodedIdentity d ≠ pyUpper username)
    (hgm : decodeGm gmStored.accessToken = none ∨
      ∃ d, decodeGm gmStored.accessToken = some d ∧
        pyUpper (d.uid.getD "") ≠ pyUpper username) :
    (loadMsToken decodeMs username now (some msStored) refreshResult).result = none
      ∧ loadCurrentGmApiToken decodeGm username now (some gmStored) = none := by
  constructor
  · rcases hms with h | ⟨d, hd, hne⟩
    · simp [loadMsToken, h]
    · simp [loadMsToken, hd, hne]
  · rcases hgm with h | ⟨d, hd, hne⟩
    · simp [loadCurrentGmApiToken, h]
    · simp [loadCurrentGmApiToken, hd, hne]

/-- C5 witness: a stored MS token decoding to the identity `ALICE` under
configured username `BOB`, and a stored GM token whose access token does
not decode, are both rejected. -/
theorem c5_witness :
    (loadMsToken (fun _ => some { name := some "alice" }) "BOB" 0
        (some { accessToken := "mstok" }) none).result = none
      ∧ loadCurrentGmApiToken (fun _ => none) "BOB" 0
          (some { accessToken := "gmtok" }) = none :=
  c5_load_rejects_mismatch_or_undecodable
    (fun _ => some { name := some "alice" }) (fun _ => none) "BOB" 0
    { accessToken := "mstok" } { accessToken := "gmtok" } none
    (Or.inr ⟨{ name := some "alice" }, rfl, by decide⟩) (Or.inl rfl)

end PyOnStar

namespace PyOnStar

/-- C8 (counterexample).  With configured VIN `"abc123"`, the response
vehicle whose `vin` is the very same string `"abc123"` (equal to the
configured VIN — in particular equal up to letter case) and which carries
a `lockDoor` command does **not** populate the catalog and its record is
not stored: `__init__` upper-cases only the configured side
(`self._vin = vin.upper()`), while `get_account_vehicles` compares the
response `vin` by exact string equality, so any lower-case letter in the
response VIN defeats the match. -/
theorem c8_counterexample :
    getAccountVehicles "abc123"
        [{ vin := some "abc123",
           commands := some [{ name := some "lockDoor", url := some "u" }] }]
      = { vehicleData := none, availableCommands := [] }
    ∧ isCommandAvailable
        (getAccountVehicles "abc123"
          [{ vin := some "abc123",
             commands := some [{ name := some "lockDoor", url := some "u" }] }]).availableCommands
        "lockDoor" = false := by
  decide

theorem accountVehicles_foldl_no_match (selfVin : String)
    (l : List VehicleEntry) (acc : VehiclesOut)
    (h : ∀ v ∈ l, v.vin ≠ some selfVin) :
    l.foldl (accountVehiclesStep selfVin) acc = acc := by
  induction l generalizing acc with
  | nil => rfl
  | cons v vs ih =>
    have hstep : accountVehiclesStep selfVin acc v = acc := by
      have hv := h v (List.mem_cons_self v vs)
      simp [accountVehiclesStep, hv]
    rw [List.foldl_cons, hstep]
    exact ih acc (fun x hx => h x (List.mem_cons_of_mem _ hx))

/-- C8 (amended).  The vehicle entry is matched by **exact** string
equality against the upper-cased configured VIN: an entry whose `vin`
equals `pyUpper configuredVin` and that carries commands populates the
catalog and is stored (the last such entry wins), while a response none
of whose entries equals `pyUpper configuredVin` exactly — including
entries that differ from it only by letter case — leaves the catalog
empty and stores nothing.  Case-insensitivity holds only on the
configured side, not "in either direction" as claimed. -/
theorem c8_vin_match_exact_upper (configuredVin : String)
    (es : List VehicleEntry) (e : VehicleEntry) (cs : List CommandEntry)
    (hv : e.vin = some (pyUpper configuredVin)) (hc : e.commands = some cs) :
    getAccountVehicles configuredVin (es ++ [e])
        = { vehicleData := some e, availableCommands := extractCommands cs }
    ∧ ∀ es' : List VehicleEntry,
        (∀ v ∈ es', v.vin ≠ some (pyUpper configuredVin)) →
        getAccountVehicles configuredVin es'
          = { vehicleData := none, availableCommands := [] } := by
  constructor
  · unfold getAccountVehicles
    rw [List.foldl_append]
    simp [accountVehiclesStep, hv, hc]
  · intro es' h
    unfold getAccountVehicles
    exact accountVehicles_foldl_no_match _ es' {} h

/-- C8 witness: with configured VIN `"abc"`, an entry whose VIN is the
upper-cased `"ABC"` and carries a `lockDoor` command populates the
catalog. -/
theorem c8_witness :
    getAccountVehicles "abc"
        ([] ++ [{ vin := some "ABC",
                  commands := some [{ name := some "lockDoor", url := some "u" }] }])
      = { vehicleData :=
            some { vin := some "ABC",
                   commands := some [{ name := some "lockDoor", url := some "u" }] },
          availableCommands :=
            extractCommands [{ name := some "lockDoor", url := some "u" }] } :=
  (c8_vin_match_exact_upper "abc" []
    { vin := some "ABC",
      commands := some [{ name := some "lockDoor", url := some "u" }] }
    [{ name := some "lockDoor", url := some "u" }] (by decide) rfl).1

/-- C9.  `diagnostics` filters the requested item list down to the
supported set before building the request body: when the caller supplied
a `diagnostic_item` list whose supported subset is empty, it raises
(`ValueError`, here `.error .unsupportedItems`) instead of issuing the
request; and whenever a body is built (explicit request or the
all-supported default), every item in it belongs to the supported set. -/
theorem c9_diagnostics_filtering (supported requested : List String)
    (opts : Option (List String))
    (hempty : requested.filter (fun i => decide (i ∈ supported)) = []) :
    diagnosticsBody true supported (some requested) = .error .unsupportedItems
    ∧ ∀ body, diagnosticsBody true supported opts = .ok body →
        ∀ x ∈ body, x ∈ supported := by
  constructor
  · simp [diagnosticsBody, hempty]
  · intro body hok x hx
    cases opts with
    | none =>
      simp [diagnosticsBody] at hok
      rw [← hok] at hx
      exact hx
    | some req =>
      by_cases hfe : (req.filter (fun i => decide (i ∈ supported))).isEmpty
      · simp [diagnosticsBody, hfe] at hok
      · simp [diagnosticsBody, hfe] at hok
        rw [← hok] at hx
        exact of_decide_eq_true (List.mem_filter.mp hx).2

/-- C9 witness: requesting only `TirePressure` when the vehicle supports
only `Odometer` fails with the unsupported-items error, and any body built
from the default request contains only supported items. -/
theorem c9_witness :
    diagnosticsBody true ["Odometer"] (some ["TirePressure"])
        = .error .unsupportedItems
    ∧ ∀ body, diagnosticsBody true ["Odometer"] none = .ok body →
        ∀ x ∈ body, x ∈ ["Odometer"] :=
  c9_diagnostics_filtering ["Odometer"] ["TirePressure"] none (by decide)

/-- C10.  Whenever any of the four required configuration keys
(`username`, `password`, `device_id`, `totp_key`) is missing or falsy,
`get_gm_api_jwt` raises `ValueError` naming a missing key, and the result
is the same whatever authentication would have produced — i.e. the check
happens before an authenticator is constructed or any authentication step
runs. -/
theorem c10_missing_config_key {A : Type} (c : GMAuthConfig) (a : A)
    (h : ∃ k, k ∈ requiredConfigKeys ∧ configValueFalsy (configGet c k) = true) :
    ∃ k, k ∈ requiredConfigKeys ∧ configValueFalsy (configGet c k) = true
      ∧ getGmApiJwt c a = .error ("Missing required configuration key: " ++ k)
      ∧ ∀ (b : A), getGmApiJwt c b
          = .error ("Missing required configuration key: " ++ k) := by
  have hs : (requiredConfigKeys.find?
      (fun k => configValueFalsy (configGet c k))).isSome := by
    obtain ⟨k, hk, hfk⟩ := h
    exact List.find?_isSome.mpr ⟨k, hk, hfk⟩
  obtain ⟨k, hk⟩ := Option.isSome_iff_exists.mp hs
  have hmem : k ∈ requiredConfigKeys := List.mem_of_find?_eq_some hk
  have hp : configValueFalsy (configGet c k) = true :=
    @List.find?_some _ (fun k => configValueFalsy (configGet c k)) k
      requiredConfigKeys hk
  refine ⟨k, hmem, hp, ?_, ?_⟩
  · unfold getGmApiJwt firstMissingConfigKey
    rw [hk]
  · intro b
    unfold getGmApiJwt firstMissingConfigKey
    rw [hk]

/-- C10 witness: a configuration with an empty password is rejected with a
`ValueError` naming a missing key, for any would-be authentication
outcome. -/
theorem c10_witness :
    ∃ k, k ∈ requiredConfigKeys
      ∧ configValueFalsy
          (configGet { username := some "u", password := some "" } k) = true
      ∧ getGmApiJwt { username := some "u", password := some "" } (0 : Nat)
          = .error ("Missing required configuration key: " ++ k)
      ∧ ∀ (b : Nat), getGmApiJwt { username := some "u", password := some "" } b
          = .error ("Missing required configuration key: " ++ k) :=
  c10_missing_config_key { username := some "u", password := some "" } 0
    ⟨"password", by decide, by decide⟩


/-- C3.  (i) For the scripted poll chain `[inProgress, inProgress,
success-with-body]` the command POST returns the success payload after
exactly two polling waits, the two poll requests being `GET`s of the
advertised status URLs.  (ii) For responses that are `inProgress` with a
`requestTime` at least the polling timeout in the past, the chain fails
with the polling-timeout error on the very first response — zero sleeps —
so well within the configured timeout plus one polling interval of
wall-clock sleeping. -/
theorem c3_polling_behavior (cfg : ApiConfig)
    (hc : cfg.checkRequestStatus = true) (call : ApiRequestCall)
    (t1 t2 t3 : Nat) (u1 u2 : String) (now : Nat) :
    apiRequest cfg
        [.success (inProgressResp t1 u1), .success (inProgressResp t2 u2),
          .success (successResp t3)]
        call 1 2 0 none 0 none now 3
      = ⟨.ok (successResp t3),
          [call, ⟨"GET", u1, none⟩, ⟨"GET", u2, none⟩], 2, 0⟩
    ∧ ∀ (tag : Nat) (u : String) (t : Nat) (envRest : List HttpResponse),
        t + cfg.pollingTimeoutSeconds ≤ now →
        apiRequest cfg (.success (staleInProgressResp tag u t) :: envRest)
            call 1 2 0 none 0 none now 1
          = ⟨.commandTimedOut cfg.pollingTimeoutSeconds, [call], 0, 0⟩
        ∧ sleepSeconds cfg 2
            (apiRequest cfg (.success (staleInProgressResp tag u t) :: envRest)
              call 1 2 0 none 0 none now 1)
          ≤ cfg.pollingTimeoutSeconds + cfg.pollingIntervalSeconds := by
  constructor
  · simp +decide [apiRequest, inProgressResp, successResp, hc,
      maxPollsReached, pollTimedOut]
  · intro tag u t envRest ht
    have heq : apiRequest cfg
        (.success (staleInProgressResp tag u t) :: envRest)
        call 1 2 0 none 0 none now 1
        = ⟨.commandTimedOut cfg.pollingTimeoutSeconds, [call], 0, 0⟩ := by
      simp +decide [apiRequest, staleInProgressResp, hc, maxPollsReached,
        pollTimedOut, ht]
    refine ⟨heq, ?_⟩
    rw [heq]
    simp [sleepSeconds]

/-- C3 witness: concrete instantiation of both halves (default client
configuration, `now = 1000`, `requestTime = 900`, timeout 90 s). -/
theorem c3_witness :
    apiRequest {} [.success (inProgressResp 1 "a"), .success (inProgressResp 2 "b"),
        .success (successResp 3)] ⟨"POST", "/cmd", some 5⟩ 1 2 0 none 0 none 1000 3
      = ⟨.ok (successResp 3),
          [⟨"POST", "/cmd", some 5⟩, ⟨"GET", "a", none⟩, ⟨"GET", "b", none⟩], 2, 0⟩
    ∧ apiRequest {} [.success (staleInProgressResp 4 "c" 900)]
          ⟨"POST", "/cmd", some 5⟩ 1 2 0 none 0 none 1000 1
        = ⟨.commandTimedOut 90, [⟨"POST", "/cmd", some 5⟩], 0, 0⟩ :=
  ⟨(c3_polling_behavior {} rfl ⟨"POST", "/cmd", some 5⟩ 1 2 3 "a" "b" 1000).1,
    ((c3_polling_behavior {} rfl ⟨"POST", "/cmd", some 5⟩ 1 2 3 "a" "b" 1000).2
      4 "c" 900 [] (by decide)).1⟩

theorem apiRequest_dup_loop (cfg : ApiConfig) (call : ApiRequestCall)
    (retryDelay : Nat) (cs : Option Bool) (pc : Nat) (mp : Option Nat) :
    ∀ (n currentRetry maxRetries now : Nat), currentRetry + n = maxRetries →
    ∀ envRest : List HttpResponse,
      apiRequest cfg (List.replicate (n + 1) dup500 ++ envRest) call
          maxRetries retryDelay currentRetry cs pc mp now (n + 1)
        = ⟨.httpStatusError 500, List.replicate (n + 1) call, 0, n⟩ := by
  intro n
  induction n with
  | zero =>
    intro currentRetry maxRetries now h envRest
    subst h
    simp +decide [apiRequest, dup500, dupErrorBody, isDuplicateRetry,
      List.replicate]
  | succ n ih =>
    intro currentRetry maxRetries now h envRest
    have hdup : isDuplicateRetry 500 currentRetry maxRetries
        (some dupErrorBody) = true := by
      have hlt : currentRetry < maxRetries := by omega
      simp +decide [isDuplicateRetry, dupErrorBody, containsSubstring, hlt]
    rw [List.replicate_succ, List.cons_append]
    rw [apiRequest.eq_def]
    have ih' := ih (currentRetry + 1) maxRetries (now + retryDelay)
      (by omega) envRest
    simp only [dup500] at ih'
    simp only [dup500, hdup, if_true, ih']
    simp [List.replicate_succ]

/-- C4.  A command POST answered by HTTP 500 with vendor code `ONS-300`
("Duplicate vehicle request") is retried with the identical request after
a backoff sleep, up to `max_retries` times: against a script of
`max_retries + 1` such responses the chain issues exactly
`max_retries + 1` identical requests, sleeps `max_retries` backoffs, and
then propagates the HTTP 500 error to the caller. -/
theorem c4_duplicate_retry (cfg : ApiConfig) (call : ApiRequestCall)
    (maxRetries retryDelay now : Nat) (cs : Option Bool) (pc : Nat)
    (mp : Option Nat) (envRest : List HttpResponse) :
    apiRequest cfg (List.replicate (maxRetries + 1) dup500 ++ envRest) call
        maxRetries retryDelay 0 cs pc mp now (maxRetries + 1)
      = ⟨.httpStatusError 500, List.replicate (maxRetries + 1) call, 0,
          maxRetries⟩ :=
  apiRequest_dup_loop cfg call retryDelay cs pc mp maxRetries 0 maxRetries
    now (by omega) envRest

/-- C6 (counterexample).  A command response whose envelope has
`type = "connect"` but `status = "failure"` does **not** make
`_api_request` return the response: the failure check precedes the
connect check in the source, so the call raises `CommandFailedError`
instead of returning.  The claim's "regardless of the envelope's status
value (including failure)" is therefore false. -/
theorem c6_connect_failure_counterexample :
    apiRequest {} [.success connectFailureData] ⟨"POST", "/cmd", none⟩
        1 2 0 none 0 none 0 1
      = ⟨.commandFailed connectFailureData, [⟨"POST", "/cmd", none⟩], 0, 0⟩
    ∧ (apiRequest {} [.success connectFailureData] ⟨"POST", "/cmd", none⟩
        1 2 0 none 0 none 0 1).outcome ≠ .ok connectFailureData := by
  constructor
  · decide
  · decide

/-- C6 (amended).  A command response whose envelope has
`type = "connect"` is returned immediately with no polling sleep and no
further request, **provided** its status is not `failure` (which raises
`CommandFailedError` first) and its `requestTime`, if present, has not
already exceeded the polling timeout (which raises the timeout error
first).  Any status other than `failure` — including `pending` and
`inProgress` — is returned immediately. -/
theorem c6_connect_returns_immediately (cfg : ApiConfig)
    (hc : cfg.checkRequestStatus = true) (call : ApiRequestCall)
    (env : List HttpResponse) (d : ResponseData) (cr : CommandResponse)
    (mr rd now fuel : Nat)
    (hd : d.commandResponse = some cr) (hct : cr.ctype = some "connect")
    (hnf : cr.status ≠ some "failure")
    (hnt : pollTimedOut cr.requestTime cfg.pollingTimeoutSeconds now = false) :
    apiRequest cfg (.success d :: env) call mr rd 0 none 0 none now (fuel + 1)
      = ⟨.ok d, [call], 0, 0⟩ := by
  rw [apiRequest.eq_def]
  simp [hd, hc, maxPollsReached, hnt, hct, hnf]

/-- C6 witness: a `connect` envelope in `pending` state is returned
immediately. -/
theorem c6_witness :
    apiRequest {} [.success connectPendingData] ⟨"POST", "/cmd", none⟩
        1 2 0 none 0 none 0 1
      = ⟨.ok connectPendingData, [⟨"POST", "/cmd", none⟩], 0, 0⟩ :=
  c6_connect_returns_immediately {} rfl ⟨"POST", "/cmd", none⟩ []
    connectPendingData
    { status := some "pending", ctype := some "connect" }
    1 2 0 0 rfl rfl (by decide) rfl


/-- C1 (counterexample).  The empty-`vehs` recursion is unguarded: when
the token exchange keeps returning empty-`vehs` tokens, `authenticate`
does **not** perform exactly one additional re-authentication attempt.
Against an environment whose first two exchanges return empty `vehs`
(then a good token), the run completes after **two** full
re-authentication attempts (three exchanges), not one; and against an
environment in which every exchange returns empty `vehs`, the run is
still recursing after 10 rounds (`outOfFuel` at fuel 10) — the source
recursion never terminates in that case. -/
theorem c1_unbounded_reauth_counterexample :
    (authenticate c1CexEnv (c1InitState c1CachedMsToken c1OldGmFileToken)
        {} 3).2.2.fullAuthAttempts = 2
    ∧ (authenticate c1CexEnv (c1InitState c1CachedMsToken c1OldGmFileToken)
        {} 3).2.2.fullAuthAttempts ≠ 1
    ∧ (authenticate c1CexEnv (c1InitState c1CachedMsToken c1OldGmFileToken)
        {} 3).1 = .ok { c1GoodToken with expiresAt := some 2800 }
    ∧ (authenticate c1AllEmptyEnv
        (c1InitState c1CachedMsToken c1OldGmFileToken) {} 10).1
      = .outOfFuel := by
  refine ⟨by decide, by decide, by decide, by decide⟩

/-- C1 (amended).  When the **first** token exchange returns an
empty-`vehs` token and the exchange after the forced re-login returns a
token with vehicles, `authenticate` renames both persisted token files to
their `.old` siblings, clears the in-memory vendor token, and performs
exactly one additional full authentication attempt before succeeding.
This single-retry behaviour holds only because the second exchange
result is non-empty: the recursion itself is unguarded, and each further
empty-`vehs` exchange triggers another full attempt without bound (see
the counterexample). -/
theorem c1_stale_vehs_single_reauth
    (env : AuthEnv) (cached fresh : TokenSet)
    (oldGm emptyTok goodTok : GMAPITokenResponse)
    (dm : MsDecoded) (dEmpty dGood : GmDecoded)
    (hdm : env.decodeMs cached.accessToken = some dm)
    (hdmId : msDecodedIdentity dm = pyUpper env.username)
    (hfreshExp : env.now + 5 * 60 < cached.expiresAt.getD 0)
    (hfa : env.fullAuthResult 0 = some fresh)
    (hex0 : env.exchangeResult 0 = some emptyTok)
    (hex1 : env.exchangeResult 1 = some goodTok)
    (hdE : env.decodeGm emptyTok.accessToken = some dEmpty)
    (hdEv : dEmpty.vehs = [])
    (hdG : env.decodeGm goodTok.accessToken = some dGood)
    (hdGv : dGood.vehs ≠ []) :
    authenticate env (c1InitState cached oldGm) {} 2
      = (.ok { goodTok with expiresAt := some (env.now + goodTok.expiresIn) },
          { msFile := some fresh,
            gmFile :=
              some { goodTok with
                     expiresAt := some (env.now + goodTok.expiresIn) },
            msOldFile := some cached,
            gmOldFile := some oldGm,
            currentGmToken :=
              some { goodTok with
                     expiresAt := some (env.now + goodTok.expiresIn) },
            exchangeIdx := 2, fullAuthIdx := 1, refreshIdx := 0 },
          { fullAuthAttempts := 1, exchanges := 2, invalidations := 1 }) := by
  have hgE : dGood.vehs.isEmpty = false := by
    cases hv : dGood.vehs with
    | nil => exact absurd hv hdGv
    | cons a l => rfl
  simp [authenticate, c1InitState, loadMsToken, hdm, hdmId, hfreshExp,
    getGmApiTokenStep, getGmExchange, invalidateTokenFiles, saveTokens,
    hfa, hex0, hex1, hdE, hdEv, hdG, hgE]

/-- C1 witness: the single-stale-token environment, run concretely. -/
theorem c1_witness :
    authenticate c1GoodEnv (c1InitState c1CachedMsToken c1OldGmFileToken)
        {} 2
      = (.ok { c1GoodToken with expiresAt := some (1000 + 1800) },
          { msFile := some c1FreshMsToken,
            gmFile := some { c1GoodToken with expiresAt := some (1000 + 1800) },
            msOldFile := some c1CachedMsToken,
            gmOldFile := some c1OldGmFileToken,
            currentGmToken :=
              some { c1GoodToken with expiresAt := some (1000 + 1800) },
            exchangeIdx := 2, fullAuthIdx := 1, refreshIdx := 0 },
          { fullAuthAttempts := 1, exchanges := 2, invalidations := 1 }) :=
  c1_stale_vehs_single_reauth c1GoodEnv c1CachedMsToken c1FreshMsToken
    c1OldGmFileToken c1EmptyVehsToken c1GoodToken
    { name := some "user" }
    { uid := some "USER", vehs := [] }
    { uid := some "USER", vehs := [⟨"VIN1", "full"⟩] }
    rfl (by decide) (by decide) rfl rfl rfl rfl rfl rfl (by decide)


set_option maxRecDepth 10000 in
theorem sha256_abc_test_vector :
    sha256 (strBytes "abc") =
      [0xba, 0x78, 0x16, 0xbf, 0x8f, 0x01, 0xcf, 0xea,
       0x41, 0x41, 0x40, 0xde, 0x5d, 0xae, 0x22, 0x23,
       0xb0, 0x03, 0x61, 0xa3, 0x96, 0x17, 0x7a, 0x9c,
       0xb4, 0x10, 0xff, 0x61, 0xf2, 0x00, 0x15, 0xad] := by
  decide

set_option maxRecDepth 10000 in
theorem pkce_challenge_concrete_value :
    (startMsAuthorizationFlow (List.range 32) (List.range 16)).codeChallenge
      = "6oZqdX5MOLq_qBJ8vppAnT4fk6AP8UiP9zX8-Rev_9A" := by
  decide

/-- C7.  For every draw of 32 random verifier bytes (and any state
bytes), the generated `code_verifier` is the base64url-no-padding
encoding of those 32 bytes, and the generated `code_challenge` is the
base64url-no-padding encoding of the SHA-256 digest of the verifier's
ASCII bytes.  (`sha256` here is validated against the FIPS 180 test
vector in `sha256_abc_test_vector`, and the whole pipeline against
CPython's `base64`/`hashlib` output in
`pkce_challenge_concrete_value`.) -/
theorem c7_pkce_challenge (verifierRandomBytes stateRandomBytes : List Nat)
    (hlen : verifierRandomBytes.length = 32) :
    (startMsAuthorizationFlow verifierRandomBytes stateRandomBytes).codeVerifier
      = urlsafeB64encode verifierRandomBytes
    ∧ (startMsAuthorizationFlow verifierRandomBytes
        stateRandomBytes).codeChallenge
      = urlsafeB64encode (sha256 (strBytes
          (urlsafeB64encode verifierRandomBytes))) :=
  ⟨rfl, rfl⟩

/-- C7 witness: the 32-byte draw `0,1,…,31`. -/
theorem c7_witness :
    (startMsAuthorizationFlow (List.range 32) (List.range 16)).codeVerifier
      = urlsafeB64encode (List.range 32)
    ∧ (startMsAuthorizationFlow (List.range 32) (List.range 16)).codeChallenge
      = urlsafeB64encode (sha256 (strBytes (urlsafeB64encode (List.range 32)))) :=
  c7_pkce_challenge (List.range 32) (List.range 16) (by decide)

end PyOnStar
